import Mathlib

/-!
Shallow embedding of `create_test_rom.py` (repository 8bitten).

The script defines a single function `create_test_rom(filename="test.nes")`
that builds three byte buffers in memory (a 16-byte iNES header, a
16384-byte PRG ROM, an 8192-byte CHR ROM) and writes them consecutively
to a file opened in binary write mode.

Bytes are modelled as `Nat` values below 256; buffers as `List Nat`.
Python `bytearray` item assignment `buf[i] = v` raises `IndexError` when
`i` is out of range (and `ValueError` when `v` is not a byte), so it is
modelled as an `Option`-returning operation.  Slice assignment with
in-range bounds replaces the addressed segment and never raises; Python
clamps slice bounds, which `List.take`/`List.drop` also do.

The file system is modelled as a map from file names to optional
contents; one invocation of the function is modelled together with an
I/O environment saying whether `open(filename, "wb")` succeeds and
which of the three `f.write` calls, if any, fails.
-/

/-- Python bytearray item assignment `buf[i] = v`: succeeds only when the
index is in range and the value is a byte; otherwise the statement raises
(IndexError resp. ValueError), modelled as `none`. -/
def bytearraySet (buf : List Nat) (i v : Nat) : Option (List Nat) :=
  if i < buf.length ∧ v < 256 then some (buf.set i v) else none

/-- Python bytearray slice assignment `buf[a:b] = vs`: the segment from `a`
(inclusive) to `b` (exclusive) is replaced by `vs`; slice bounds clamp to
the buffer length, as `List.take` and `List.drop` do. -/
def bytearraySetSlice (buf : List Nat) (a b : Nat) (vs : List Nat) : List Nat :=
  buf.take a ++ vs ++ buf.drop b

/-- Lines 11-17 of `create_test_rom.py`: the iNES header construction.
`header = bytearray(16)`, then `header[0:4] = b"NES\x1a"`, `header[4] = 1`,
`header[5] = 1`, `header[6] = 0x00`, `header[7] = 0x00`,
`header[8:16] = b"\x00" * 8`, in program order. -/
def mkHeader : Option (List Nat) := do
  let header := List.replicate 16 0
  let header := bytearraySetSlice header 0 4 [0x4E, 0x45, 0x53, 0x1A]
  let header ← bytearraySet header 4 1
  let header ← bytearraySet header 5 1
  let header ← bytearraySet header 6 0x00
  let header ← bytearraySet header 7 0x00
  pure (bytearraySetSlice header 8 16 (List.replicate 8 0))

/-- Lines 20-30 of `create_test_rom.py`: the PRG ROM construction.
`prg_rom = bytearray(16384)`, then `prg_rom[0x7FFC] = 0x00`,
`prg_rom[0x7FFD] = 0x80`, `prg_rom[0x0000] = 0x4C`,
`prg_rom[0x0001] = 0x00`, `prg_rom[0x0002] = 0x80`, in program order. -/
def mkPrgRom : Option (List Nat) := do
  let prg ← bytearraySet (List.replicate 16384 0) 0x7FFC 0x00
  let prg ← bytearraySet prg 0x7FFD 0x80
  let prg ← bytearraySet prg 0x0000 0x4C
  let prg ← bytearraySet prg 0x0001 0x00
  let prg ← bytearraySet prg 0x0002 0x80
  pure prg

/-- Line 33 of `create_test_rom.py`: `chr_rom = bytearray(8192)`. -/
def mkChrRom : List Nat := List.replicate 8192 0

/-- Lines 11-33 of `create_test_rom.py`: the whole in-memory construction
phase, in program order (header, then PRG, then CHR).  A raised exception
aborts the function before any file I/O. -/
def mkRomBuffers : Option (List Nat × List Nat × List Nat) := do
  let header ← mkHeader
  let prg ← mkPrgRom
  pure (header, prg, mkChrRom)

/-- I/O environment for one invocation: whether `open(filename, "wb")`
succeeds, and which of the sequential `f.write` calls fails (`none` when
they all succeed). -/
structure IOEnv where
  canOpen : Bool
  failAt : Option Nat

/-- The sequence of `f.write` calls on a file freshly truncated by
`open(filename, "wb")`: each call either appends its whole buffer or
fails, leaving the bytes appended so far.  Returns the final file bytes
and whether all writes succeeded. -/
def writeCalls : List (List Nat) → Option Nat → List Nat → List Nat × Bool
  | [], _, acc => (acc, true)
  | _ :: _, some 0, acc => (acc, false)
  | b :: bs, some (k + 1), acc => writeCalls bs (some k) (acc ++ b)
  | b :: bs, none, acc => writeCalls bs none (acc ++ b)

/-- One invocation of `create_test_rom` (lines 7-47): run the in-memory
construction; if it raises, the invocation fails with the file system
untouched.  Otherwise `open(filename, "wb")` creates or truncates the
file (failing when the path is not writable, file system untouched), and
`header`, `prg_rom`, `chr_rom` are written by three sequential calls.
Returns the resulting file system and whether the invocation succeeded. -/
def create_test_rom (env : IOEnv) (fs : String → Option (List Nat))
    (filename : String) : (String → Option (List Nat)) × Bool :=
  match mkRomBuffers with
  | none => (fs, false)
  | some (header, prg, chrRom) =>
    if env.canOpen then
      let w := writeCalls [header, prg, chrRom] env.failAt []
      (fun n => if n = filename then some w.1 else fs n, w.2)
    else (fs, false)

/-- Line 7 and lines 49-50: the Python parameter default
`filename="test.nes"`, used by the `__main__` entry point, which calls
`create_test_rom()` with no arguments. -/
def create_test_rom_default (env : IOEnv) (fs : String → Option (List Nat)) :
    (String → Option (List Nat)) × Bool :=
  create_test_rom env fs "test.nes"

/-- The 16 header bytes that lines 11-17 build in memory. -/
def headerBytes : List Nat :=
  [0x4E, 0x45, 0x53, 0x1A, 1, 1, 0, 0, 0, 0, 0, 0, 0, 0, 0, 0]

theorem mkHeader_eq : mkHeader = some headerBytes := by decide

theorem bytearraySet_7FFC :
    bytearraySet (List.replicate 16384 0) 0x7FFC 0x00 = none := by
  simp only [bytearraySet, List.length_replicate]
  norm_num

theorem mkPrgRom_eq : mkPrgRom = none := by
  unfold mkPrgRom
  rw [bytearraySet_7FFC]
  rfl

theorem mkRomBuffers_eq : mkRomBuffers = none := by
  unfold mkRomBuffers
  rw [mkHeader_eq, mkPrgRom_eq]
  rfl

theorem create_test_rom_fails (env : IOEnv) (fs : String → Option (List Nat))
    (filename : String) : create_test_rom env fs filename = (fs, false) := by
  unfold create_test_rom
  rw [mkRomBuffers_eq]

/-- C1: the claim says every invocation with a writable path produces a
24592-byte file.  In fact no invocation produces any file: the in-memory
construction raises IndexError at `prg_rom[0x7FFC]` (index 32764 into a
16384-byte bytearray) before the file is even opened, so the file system
is left unchanged and the call fails — in particular, with a writable
path and an initially absent `test.nes`, no file exists afterwards. -/
theorem create_test_rom_C1 :
    (∀ env fs filename, create_test_rom env fs filename = (fs, false)) ∧
    (create_test_rom ⟨true, none⟩ (fun _ => none) "test.nes").1 "test.nes" = none := by
  refine ⟨fun env fs filename => create_test_rom_fails env fs filename, ?_⟩
  rw [create_test_rom_fails]

/-- C2: the claim describes the first 8 bytes of the produced file of a
successful invocation.  The header buffer built in memory by lines 11-17
does have exactly the claimed bytes (4E 45 53 1A 01 01 00 00, then zeros),
but no invocation ever succeeds — every call fails during the PRG
construction — so no produced file exists. -/
theorem create_test_rom_C2 :
    mkHeader = some headerBytes ∧
    ∀ env fs filename, (create_test_rom env fs filename).2 = false := by
  refine ⟨mkHeader_eq, fun env fs filename => ?_⟩
  rw [create_test_rom_fails]

/-- C3: the claim describes the zero bytes of the produced file of a
successful invocation.  The PRG region is never constructed (the
construction raises at its first item assignment), the CHR buffer is
indeed 8192 zero bytes, and every invocation fails with the file system
unchanged, so no produced file with the described regions exists. -/
theorem create_test_rom_C3 :
    mkPrgRom = none ∧
    mkChrRom.length = 8192 ∧ (mkChrRom.all fun b => b == 0) = true ∧
    ∀ env fs filename, create_test_rom env fs filename = (fs, false) := by
  refine ⟨mkPrgRom_eq, ?_, ?_, fun env fs filename => ?_⟩
  · unfold mkChrRom
    rw [List.length_replicate]
  · unfold mkChrRom
    rw [List.all_eq_true]
    intro x hx
    rw [List.eq_of_mem_replicate hx]
    rfl
  · exact create_test_rom_fails env fs filename

/-- C4: the claim says the produced file carries the reset vector at file
offsets 16+0x7FFC and 16+0x7FFD.  The very statement that should install
the low reset-vector byte, `prg_rom[0x7FFC] = 0x00`, is out of bounds for
the 16384-byte PRG buffer and raises IndexError, so the PRG region is
never built and no file with the claimed bytes is ever produced. -/
theorem create_test_rom_C4 :
    bytearraySet (List.replicate 16384 0) 0x7FFC 0x00 = none ∧
    mkPrgRom = none ∧
    ∀ env fs filename, (create_test_rom env fs filename).2 = false := by
  refine ⟨bytearraySet_7FFC, mkPrgRom_eq, fun env fs filename => ?_⟩
  rw [create_test_rom_fails]

/-- C5: the claim says a second invocation fully overwrites the path and
its outcome is independent of the prior content.  In fact an invocation
writes nothing: with prior content `[1]` at the path the content is still
`[1]` afterwards, while with no prior file there is still no file — the
resulting content does depend on the prior content. -/
theorem create_test_rom_C5 :
    (create_test_rom ⟨true, none⟩ (fun _ => some [1]) "test.nes").1 "test.nes"
      = some [1] ∧
    (create_test_rom ⟨true, none⟩ (fun _ => none) "test.nes").1 "test.nes"
      = none := by
  constructor
  · rw [create_test_rom_fails]
  · rw [create_test_rom_fails]

/-- C6: the claim says every invocation writes the same fixed 24592-byte
sequence, independent of all inputs.  In fact no invocation writes
anything: the file system after any call, for any environment, prior
state and filename, is exactly the file system before it. -/
theorem create_test_rom_C6 :
    ∀ env fs filename, (create_test_rom env fs filename).1 = fs := by
  intro env fs filename
  rw [create_test_rom_fails]

/-- C7: the claim says the function fails if and only if the destination
path is not writable.  In fact it also fails when the path is perfectly
writable (open succeeds, every write would succeed): the IndexError from
the buffer construction is a second, unconditional error condition. -/
theorem create_test_rom_C7 :
    ∀ fs filename, (create_test_rom ⟨true, none⟩ fs filename).2 = false := by
  intro fs filename
  rw [create_test_rom_fails]

/-- C8: the claim says the image is constructed entirely in memory and
then written atomically, with a failed invocation leaving the target
unchanged.  The in-memory construction never completes (it raises midway
through the PRG buffer), so the write phase is unreachable; the target is
indeed left unchanged by every invocation, but only because nothing is
ever written. -/
theorem create_test_rom_C8 :
    mkRomBuffers = none ∧
    ∀ env fs filename, create_test_rom env fs filename = (fs, false) := by
  exact ⟨mkRomBuffers_eq, fun env fs filename => create_test_rom_fails env fs filename⟩

/-- C9: the claim says invoking with no arguments creates a 24592-byte
file named `test.nes` in the current directory.  The entry point calls
the function with the default filename, the call fails, and no `test.nes`
is created: starting from an empty directory, the path still maps to no
file afterwards. -/
theorem create_test_rom_C9 :
    (create_test_rom_default ⟨true, none⟩ (fun _ => none)).1 "test.nes" = none ∧
    (create_test_rom_default ⟨true, none⟩ (fun _ => none)).2 = false := by
  unfold create_test_rom_default
  rw [create_test_rom_fails]
  exact ⟨rfl, rfl⟩

/-- C10 counterexample: the claim asserts that the largest PRG offset
written, 0x7FFD, is below 16384 and that the construction can never raise.
In fact 16384 ≤ 0x7FFD (= 32765), and already the first PRG item
assignment, at offset 0x7FFC (= 32764), is out of bounds and fails. -/
theorem create_test_rom_C10_counterexample :
    16384 ≤ 0x7FFD ∧
    bytearraySet (List.replicate 16384 0) 0x7FFC 0x00 = none := by
  exact ⟨by norm_num, bytearraySet_7FFC⟩

/-- C10 amended: every header index assignment (offsets 4, 5, 6, 7 of a
16-byte buffer) and the three jump-instruction assignments (offsets 0..2
of the 16384-byte PRG buffer) are in bounds and succeed, but the two
reset-vector assignments at offsets 0x7FFC and 0x7FFD are out of bounds
for the 16384-byte buffer, so the construction phase raises an IndexError
on every invocation — before any file I/O, leaving the file system
unchanged — rather than never raising. -/
theorem create_test_rom_C10 :
    mkHeader.isSome = true ∧
    (bytearraySet (List.replicate 16384 0) 0x0000 0x4C).isSome = true ∧
    (bytearraySet (List.replicate 16384 0) 0x0001 0x00).isSome = true ∧
    (bytearraySet (List.replicate 16384 0) 0x0002 0x80).isSome = true ∧
    bytearraySet (List.replicate 16384 0) 0x7FFC 0x00 = none ∧
    bytearraySet (List.replicate 16384 0) 0x7FFD 0x80 = none ∧
    mkPrgRom = none ∧
    ∀ env fs filename, create_test_rom env fs filename = (fs, false) := by
  refine ⟨by rw [mkHeader_eq]; rfl, ?_, ?_, ?_, bytearraySet_7FFC, ?_, mkPrgRom_eq,
    fun env fs filename => create_test_rom_fails env fs filename⟩
  · simp only [bytearraySet, List.length_replicate]
    norm_num
  · simp only [bytearraySet, List.length_replicate]
    norm_num
  · simp only [bytearraySet, List.length_replicate]
    norm_num
  · simp only [bytearraySet, List.length_replicate]
    norm_num
